import Mathlib

/-!
Verification of the BreachShield breach-detection-to-notification pipeline.

This file gives a shallow embedding of the core components of the repository
(severity scoring engine, SMS message builder, remediation cache key and
advisor, ingestion worker and alert dispatch orchestrator) and proves or
refutes the specification's claims about them.

Conventions of the embedding:
* Python strings are Lean `String`s; Python `len` is `String.length`.
* Python ints are `Int` where a value can go negative (e.g. the remaining
  room for the breach name in an SMS), `Nat` otherwise.
* The SQLAlchemy session is modelled as a pair of database snapshots
  (`committed`, `current`): queries and flushed writes act on `current`,
  `commit` copies `current` into `committed`, `rollback` restores
  `committed` into `current`.
* External collaborators (HIBP feed, Claude API, Twilio, SendGrid,
  hashlib.sha256) are parameters of the functions that call them.
* An exception raised inside a worker is modelled by an explicit failure
  injection parameter; the code's `except` handler rolls the session back.
-/

set_option maxRecDepth 2000

namespace BreachShield

/-! ## Severity scoring engine (backend/scoring/severity_engine.py) -/

/-- The `DATA_CLASS_WEIGHTS` dict, in source order. -/
def DATA_CLASS_WEIGHTS : List (String × Nat) :=
  [("Passwords", 25),
   ("Password hints", 20),
   ("Auth tokens", 20),
   ("Credit cards", 25),
   ("Bank account numbers", 25),
   ("Social security numbers", 25),
   ("Passport numbers", 20),
   ("Government issued IDs", 20),
   ("Private messages", 15),
   ("Security questions and answers", 18),
   ("Biometric data", 22),
   ("Health insurance information", 18),
   ("Medical records", 20),
   ("Financial transactions", 18),
   ("Purchases", 10),
   ("Phone numbers", 8),
   ("Physical addresses", 8),
   ("Dates of birth", 7),
   ("Genders", 3),
   ("Geographic locations", 5),
   ("Ethnicities", 5),
   ("Email addresses", 5),
   ("Usernames", 4),
   ("Names", 3),
   ("IP addresses", 4),
   ("Device information", 3),
   ("Browser user agent details", 2),
   ("Avatars", 1),
   ("Website activity", 3)]

/-- `DATA_CLASS_WEIGHTS.get(c, 2)`: the weight of a data class,
defaulting to 2 for unrecognized classes. -/
def classWeight (c : String) : Nat :=
  (DATA_CLASS_WEIGHTS.lookup c).getD 2

/-- `c in DATA_CLASS_WEIGHTS`. -/
def isKnownClass (c : String) : Bool :=
  (DATA_CLASS_WEIGHTS.lookup c).isSome

/-- The `critical_types` whitelist of `is_critical_breach`. -/
def critical_types : List String :=
  ["Passwords", "Credit cards", "Bank account numbers",
   "Social security numbers", "Auth tokens", "Biometric data"]

/-- `is_critical_breach`: true iff some exposed class is in the whitelist. -/
def is_critical_breach (data_classes : List String) : Bool :=
  data_classes.any (fun c => critical_types.contains c)

/-- Result dataclass `SeverityResult`. -/
structure SeverityResult where
  label : String
  score : Nat
  matched_classes : List String
  top_risk : String
  description : String
deriving Repr, DecidableEq

/-- Accumulator of the scoring loop in `calculate_severity`:
`raw_score`, `matched_classes`, `top_risk`, `highest_weight`
(the latter is an `Int` because it is initialized to `-1`). -/
structure LoopAcc where
  raw_score : Nat
  matched_classes : List String
  top_risk : String
  highest_weight : Int
deriving Repr, DecidableEq

/-- The `for c in data_classes` loop of `calculate_severity`. -/
def sevLoop : List String → LoopAcc → LoopAcc
  | [], acc => acc
  | c :: rest, acc =>
    let w := classWeight c
    sevLoop rest
      { raw_score := acc.raw_score + w
        matched_classes :=
          if isKnownClass c then acc.matched_classes ++ [c] else acc.matched_classes
        top_risk := if (w : Int) > acc.highest_weight then c else acc.top_risk
        highest_weight :=
          if (w : Int) > acc.highest_weight then (w : Int) else acc.highest_weight }

/-- Label/score assignment from thresholds, with the critical override
(`CRITICAL ≥ 25`, `HIGH ≥ 12`, `MEDIUM ≥ 6`, `LOW` otherwise). -/
def sevLabelScore (critical : Bool) (score0 : Nat) : String × Nat :=
  if critical = true ∨ score0 ≥ 25 then ("CRITICAL", max score0 25)
  else if score0 ≥ 12 then ("HIGH", score0)
  else if score0 ≥ 6 then ("MEDIUM", score0)
  else ("LOW", score0)

/-- `calculate_severity`. -/
def calculate_severity : List String → SeverityResult
  | [] => ⟨"LOW", 0, [], "None", "No data classes reported"⟩
  | c0 :: rest =>
    let data_classes := c0 :: rest
    let acc := sevLoop data_classes ⟨0, [], "None", -1⟩
    let score0 := min acc.raw_score 100
    let ls := sevLabelScore (is_critical_breach data_classes) score0
    let description :=
      if data_classes.contains "Passwords" then
        "Your login credentials were directly exposed."
      else if data_classes.contains "Credit cards"
           || data_classes.contains "Bank account numbers" then
        "Your financial data was exposed."
      else
        toString data_classes.length ++
          " types of personal data were exposed including " ++ c0 ++ "."
    ⟨ls.1, ls.2, acc.matched_classes, acc.top_risk, description⟩

/-- Sum of the class weights of a list, i.e. the final `raw_score`. -/
def sumWeights (l : List String) : Nat :=
  (l.map classWeight).sum

/-- The `top_risk`/`highest_weight` part of the scoring loop, in isolation. -/
def topSpec : String → Int → List String → String × Int
  | cur, h, [] => (cur, h)
  | cur, h, c :: rest =>
    if (classWeight c : Int) > h then topSpec c (classWeight c) rest
    else topSpec cur h rest

lemma sevLoop_raw (l : List String) : ∀ acc : LoopAcc,
    (sevLoop l acc).raw_score = acc.raw_score + sumWeights l := by
  induction l with
  | nil => intro acc; simp [sevLoop, sumWeights]
  | cons c rest ih =>
    intro acc
    simp only [sevLoop, ih]
    simp [sumWeights]
    omega

lemma sumWeights_append (l l' : List String) :
    sumWeights (l ++ l') = sumWeights l + sumWeights l' := by
  simp [sumWeights]

lemma sevLoop_topPair (l : List String) : ∀ acc : LoopAcc,
    ((sevLoop l acc).top_risk, (sevLoop l acc).highest_weight)
      = topSpec acc.top_risk acc.highest_weight l := by
  induction l with
  | nil => intro acc; simp [sevLoop, topSpec]
  | cons c rest ih =>
    intro acc
    by_cases hw : (classWeight c : Int) > acc.highest_weight
    · simp only [sevLoop, topSpec, if_pos hw]
      exact ih _
    · simp only [sevLoop, topSpec, if_neg hw]
      exact ih _

lemma is_critical_breach_append (l l' : List String) :
    is_critical_breach (l ++ l')
      = (is_critical_breach l || is_critical_breach l') := by
  simp [is_critical_breach]

lemma sevLabelScore_snd_pos {critical : Bool} {s : Nat}
    (h : critical = true ∨ 25 ≤ s) :
    (sevLabelScore critical s).2 = max s 25 := by
  simp only [sevLabelScore, ge_iff_le]
  rw [if_pos h]

lemma sevLabelScore_snd_neg {critical : Bool} {s : Nat}
    (h : ¬(critical = true ∨ 25 ≤ s)) :
    (sevLabelScore critical s).2 = s := by
  simp only [sevLabelScore, ge_iff_le]
  rw [if_neg h]
  split
  · rfl
  · split
    · rfl
    · rfl

lemma sevLabelScore_fst_pos {critical : Bool} {s : Nat} (h : critical = true) :
    (sevLabelScore critical s).1 = "CRITICAL" := by
  simp only [sevLabelScore, ge_iff_le]
  rw [if_pos (Or.inl h)]

/-- `calculate_severity` on a non-empty list: the label/score pair. -/
lemma calculate_severity_cons_labelscore (c0 : String) (rest : List String) :
    (calculate_severity (c0 :: rest)).label
        = (sevLabelScore (is_critical_breach (c0 :: rest))
            (min (sumWeights (c0 :: rest)) 100)).1
      ∧ (calculate_severity (c0 :: rest)).score
        = (sevLabelScore (is_critical_breach (c0 :: rest))
            (min (sumWeights (c0 :: rest)) 100)).2 := by
  have hraw : (sevLoop (c0 :: rest) ⟨0, [], "None", -1⟩).raw_score
      = sumWeights (c0 :: rest) := by
    rw [sevLoop_raw]; simp
  constructor <;> simp [calculate_severity, hraw]

lemma topSpec_argmax (l : List String) : ∀ (cur : String) (h : Int),
    ((topSpec cur h l).1 = cur ∧ (topSpec cur h l).2 = h
        ∧ ∀ c ∈ l, (classWeight c : Int) ≤ h)
    ∨ (∃ pre post, l = pre ++ (topSpec cur h l).1 :: post
        ∧ (topSpec cur h l).2 = (classWeight (topSpec cur h l).1 : Int)
        ∧ h < (classWeight (topSpec cur h l).1 : Int)
        ∧ (∀ c ∈ pre, classWeight c < classWeight (topSpec cur h l).1)
        ∧ (∀ c ∈ post, classWeight c ≤ classWeight (topSpec cur h l).1)) := by
  induction l with
  | nil =>
    intro cur h
    left
    exact ⟨rfl, rfl, by simp⟩
  | cons c rest ih =>
    intro cur h
    by_cases hw : (classWeight c : Int) > h
    · simp only [topSpec, if_pos hw]
      rcases ih c (classWeight c) with ⟨h1, h2, h3⟩ | ⟨pre, post, e1, e2, e3, e4, e5⟩
      · right
        refine ⟨[], rest, ?_, ?_, ?_, ?_, ?_⟩
        · rw [h1, List.nil_append]
        · rw [h1, h2]
        · rw [h1]; exact hw
        · simp
        · intro c' hc'
          have := h3 c' hc'
          rw [h1]
          omega
      · right
        refine ⟨c :: pre, post, ?_, e2, ?_, ?_, e5⟩
        · rw [List.cons_append, ← e1]
        · omega
        · intro c' hc'
          rcases List.mem_cons.mp hc' with rfl | hmem
          · omega
          · exact e4 c' hmem
    · simp only [topSpec, if_neg hw]
      rcases ih cur h with ⟨h1, h2, h3⟩ | ⟨pre, post, e1, e2, e3, e4, e5⟩
      · left
        refine ⟨h1, h2, ?_⟩
        intro c' hc'
        rcases List.mem_cons.mp hc' with rfl | hmem
        · omega
        · exact h3 c' hmem
      · right
        refine ⟨c :: pre, post, ?_, e2, e3, ?_, e5⟩
        · rw [List.cons_append, ← e1]
        · intro c' hc'
          rcases List.mem_cons.mp hc' with rfl | hmem
          · omega
          · exact e4 c' hmem

lemma calculate_severity_top_risk (c0 : String) (rest : List String) :
    (calculate_severity (c0 :: rest)).top_risk
      = (topSpec "None" (-1) (c0 :: rest)).1 := by
  have h := sevLoop_topPair (c0 :: rest) ⟨0, [], "None", -1⟩
  have h1 := congrArg Prod.fst h
  simpa [calculate_severity] using h1

/-! ## Theorems for the severity-engine claims -/

/-- C5: for every category list, the severity score is in `[0, 100]`, and
appending any category never decreases the score. -/
theorem severity_score_bounds_and_monotone (l : List String) (c : String) :
    0 ≤ (calculate_severity l).score
    ∧ (calculate_severity l).score ≤ 100
    ∧ (calculate_severity l).score ≤ (calculate_severity (l ++ [c])).score := by
  refine ⟨Nat.zero_le _, ?_, ?_⟩
  · -- upper bound
    cases l with
    | nil => simp [calculate_severity]
    | cons c0 rest =>
      obtain ⟨-, hs⟩ := calculate_severity_cons_labelscore c0 rest
      rw [hs]
      by_cases h : (is_critical_breach (c0 :: rest)) = true
          ∨ 25 ≤ min (sumWeights (c0 :: rest)) 100
      · rw [sevLabelScore_snd_pos h]; omega
      · rw [sevLabelScore_snd_neg h]; omega
  · -- monotonicity
    cases l with
    | nil => exact Nat.zero_le _
    | cons c0 rest =>
      have happ : (c0 :: rest) ++ [c] = c0 :: (rest ++ [c]) := rfl
      obtain ⟨-, hs⟩ := calculate_severity_cons_labelscore c0 rest
      obtain ⟨-, hs'⟩ := calculate_severity_cons_labelscore c0 (rest ++ [c])
      rw [happ, hs, hs']
      have hSS : sumWeights (c0 :: (rest ++ [c]))
          = sumWeights (c0 :: rest) + classWeight c := by
        rw [← happ, sumWeights_append]
        simp [sumWeights]
      have hcrit : is_critical_breach (c0 :: rest) = true →
          is_critical_breach (c0 :: (rest ++ [c])) = true := by
        intro hcr
        rw [← happ, is_critical_breach_append, hcr]
        simp
      rw [hSS]
      set S := sumWeights (c0 :: rest) with hS
      by_cases h1 : (is_critical_breach (c0 :: rest)) = true ∨ 25 ≤ min S 100
      · have h2 : (is_critical_breach (c0 :: (rest ++ [c]))) = true
            ∨ 25 ≤ min (S + classWeight c) 100 := by
          rcases h1 with hc | hn
          · exact Or.inl (hcrit hc)
          · right; omega
        rw [sevLabelScore_snd_pos h1, sevLabelScore_snd_pos h2]
        omega
      · rw [sevLabelScore_snd_neg h1]
        by_cases h2 : (is_critical_breach (c0 :: (rest ++ [c]))) = true
            ∨ 25 ≤ min (S + classWeight c) 100
        · rw [sevLabelScore_snd_pos h2]; omega
        · rw [sevLabelScore_snd_neg h2]; omega

/-- C3: any category list containing a member of the critical whitelist
(`Passwords`, `Credit cards`, `Bank account numbers`,
`Social security numbers`, `Auth tokens`, `Biometric data`) is labelled
CRITICAL with a score of at least 25, regardless of the summed weight. -/
theorem critical_whitelist_forces_critical (l : List String) (c : String)
    (hc : c ∈ l) (hcrit : c ∈ critical_types) :
    (calculate_severity l).label = "CRITICAL"
    ∧ 25 ≤ (calculate_severity l).score := by
  cases l with
  | nil => cases hc
  | cons c0 rest =>
    have hb : is_critical_breach (c0 :: rest) = true := by
      simp only [is_critical_breach, List.any_eq_true]
      exact ⟨c, hc, by simpa using hcrit⟩
    obtain ⟨hl, hs⟩ := calculate_severity_cons_labelscore c0 rest
    constructor
    · rw [hl, sevLabelScore_fst_pos hb]
    · rw [hs, sevLabelScore_snd_pos (Or.inl hb)]
      omega

/-- Witness for `critical_whitelist_forces_critical`. -/
theorem critical_whitelist_forces_critical_witness :
    (calculate_severity ["Names", "Passwords"]).label = "CRITICAL"
    ∧ 25 ≤ (calculate_severity ["Names", "Passwords"]).score :=
  critical_whitelist_forces_critical ["Names", "Passwords"] "Passwords"
    (by decide) (by decide)

/-- C9 counterexample: `top_risk` is computed over all input categories
(unrecognized ones getting the default weight 2), not over the matched
ones only. On `["Avatars", "Telephone directories"]` the unrecognized
entry wins (weight 2 over 1) even though it is not a matched class. -/
theorem top_risk_not_among_matched_counterexample :
    (calculate_severity ["Avatars", "Telephone directories"]).top_risk
        = "Telephone directories"
    ∧ (calculate_severity ["Avatars", "Telephone directories"]).matched_classes
        = ["Avatars"]
    ∧ ("Telephone directories" ∉
        (calculate_severity ["Avatars", "Telephone directories"]).matched_classes) := by
  refine ⟨by decide, by decide, by decide⟩

/-- C9 (amended): for every non-empty category list, `top_risk` is the
highest-weight category among all input categories — with unrecognized
categories weighted at the default 2 — ties broken by first occurrence. -/
theorem top_risk_first_argmax (l : List String) (hne : l ≠ []) :
    ∃ pre post, l = pre ++ (calculate_severity l).top_risk :: post
      ∧ (∀ c ∈ pre, classWeight c < classWeight ((calculate_severity l).top_risk))
      ∧ (∀ c ∈ l, classWeight c ≤ classWeight ((calculate_severity l).top_risk)) := by
  cases l with
  | nil => exact absurd rfl hne
  | cons c0 rest =>
    rw [calculate_severity_top_risk]
    rcases topSpec_argmax (c0 :: rest) "None" (-1) with ⟨-, -, h3⟩ |
        ⟨pre, post, e1, -, -, e4, e5⟩
    · exfalso
      have := h3 c0 (by simp)
      omega
    · refine ⟨pre, post, e1, e4, ?_⟩
      intro c hc
      rw [e1] at hc
      rcases List.mem_append.mp hc with hpre | hrest
      · exact Nat.le_of_lt (e4 c hpre)
      · rcases List.mem_cons.mp hrest with rfl | hpost
        · exact Nat.le_refl _
        · exact e5 c hpost

/-- Witness for `top_risk_first_argmax`. -/
theorem top_risk_first_argmax_witness :
    ∃ pre post, ["Passwords", "Names"]
        = pre ++ (calculate_severity ["Passwords", "Names"]).top_risk :: post
      ∧ (∀ c ∈ pre, classWeight c
          < classWeight ((calculate_severity ["Passwords", "Names"]).top_risk))
      ∧ (∀ c ∈ ["Passwords", "Names"], classWeight c
          ≤ classWeight ((calculate_severity ["Passwords", "Names"]).top_risk)) :=
  top_risk_first_argmax ["Passwords", "Names"] (by decide)

/-! ## SMS alert channel (backend/alerts/sms_alert.py) -/

/-- The fixed text of `base_structure` before the `{}` placeholder
(severity and email preview are interpolated by the f-string). -/
def smsPrefix (severity email_preview : String) : String :=
  "[BreachShield] " ++ severity ++ " ALERT: " ++ email_preview ++ " found in "

/-- The fixed text of `base_structure` after the `{}` placeholder. -/
def smsSuffix : String :=
  " breach. Change your password NOW. Reply STOP to unsubscribe."

/-- The f-string `base_structure`, with its literal `\x7b\x7d` placeholder. -/
def base_structure (severity email_preview : String) : String :=
  smsPrefix severity email_preview ++ "\x7b\x7d" ++ smsSuffix

/-- Python slice `s[:k]` for an `int` index `k`: a negative `k` counts from
the end of the string (and clamps at the empty string). -/
def pySliceTo (k : Int) (s : String) : String :=
  if 0 ≤ k then ⟨s.data.take k.toNat⟩
  else ⟨s.data.take ((s.length : Int) + k).toNat⟩

/-- `available_length = 160 - (len(base_structure) - 2)`; an `Int`, since
long interpolated values make it negative. -/
def available_length (severity email_preview : String) : Int :=
  160 - (((base_structure severity email_preview).length : Int) - 2)

/-- `build_sms_message`: `base_structure.format(x)` is modelled as
`smsPrefix ++ x ++ smsSuffix`, substitution into the single placeholder. -/
def build_sms_message (breach_name severity email_preview : String) : String :=
  if (breach_name.length : Int) > available_length severity email_preview then
    smsPrefix severity email_preview
      ++ (pySliceTo (available_length severity email_preview - 3) breach_name ++ "...")
      ++ smsSuffix
  else
    smsPrefix severity email_preview ++ breach_name ++ smsSuffix

/-- Result dictionary of `send_breach_sms`. -/
structure SmsResult where
  status : String
  reason : Option String
  error : Option String
  sid : Option String
deriving Repr, DecidableEq

/-- The strict E.164 check: `to_phone.startswith("+") and
to_phone[1:].isdigit()` (Python `isdigit` is false on the empty string). -/
def isValidPhone (to_phone : String) : Bool :=
  to_phone.startsWith "+"
    && (to_phone.drop 1) ≠ ""
    && (to_phone.drop 1).toList.all Char.isDigit

/-- `SMSAlertSender.send_breach_sms`. The Twilio collaborator is the
`provider` parameter (applied to the message body; `Except.error` models a
raised-and-caught exception path returning status `failed`). The returned
`Bool` records whether the provider was invoked at all. -/
def send_breach_sms (provider : String → Except String String)
    (to_phone breach_name severity email_preview : String) : SmsResult × Bool :=
  if ¬(severity = "CRITICAL" ∨ severity = "HIGH") then
    (⟨"skipped", some "severity_below_threshold", none, none⟩, false)
  else if ¬ isValidPhone to_phone = true then
    (⟨"failed", none, some "Invalid phone number format", none⟩, false)
  else
    let msg_body := build_sms_message breach_name severity email_preview
    match provider msg_body with
    | .ok sid => (⟨"sent", none, none, some sid⟩, true)
    | .error e => (⟨"failed", none, some e, none⟩, true)

lemma smsPrefix_length (severity email_preview : String) :
    (smsPrefix severity email_preview).length
      = 33 + severity.length + email_preview.length := by
  have h1 : ("[BreachShield] " : String).length = 15 := rfl
  have h2 : (" ALERT: " : String).length = 8 := rfl
  have h3 : (" found in " : String).length = 10 := rfl
  simp [smsPrefix, String.length_append, h1, h2, h3]
  omega

lemma smsSuffix_length : smsSuffix.length = 61 := rfl

lemma base_structure_length (severity email_preview : String) :
    (base_structure severity email_preview).length
      = 96 + severity.length + email_preview.length := by
  have h2 : ("\x7b\x7d" : String).length = 2 := rfl
  simp [base_structure, String.length_append, smsPrefix_length, h2,
    smsSuffix_length]
  omega

lemma available_length_eq (severity email_preview : String) :
    available_length severity email_preview
      = 66 - severity.length - email_preview.length := by
  unfold available_length
  rw [base_structure_length]
  push_cast
  ring

lemma pySliceTo_length (k : Int) (s : String) :
    (pySliceTo k s).length
      = if 0 ≤ k then min k.toNat s.length
        else min ((s.length : Int) + k).toNat s.length := by
  unfold pySliceTo
  have hmk : ∀ l : List Char, (String.mk l).length = l.length := fun _ => rfl
  have hd : s.data.length = s.length := rfl
  split <;> rw [hmk, List.length_take, hd]

/-! ## Theorems for the SMS claims -/

/-- C1 counterexample: with a long enough severity/preview interpolation the
fixed boilerplate alone exceeds the budget, the name slice becomes a
negative Python slice, and the built SMS body is 165 > 160 characters —
the length assertion before send fails on this input. -/
theorem sms_over_cap_counterexample :
    ¬ ((build_sms_message "ABCDE" "CRITICAL"
        "abcdefghijabcdefghijabcdefghijabcdefghijabcdefghij123456").length ≤ 160) := by
  decide

/-- C1 (amended): whenever the interpolated severity and email preview
leave at least 3 characters of room for the breach name (i.e.
`len(severity) + len(email_preview) ≤ 63`, amply true for the four
severity labels and the 50-char-max preview column), the built SMS body is
at most 160 characters (so the assertion before send holds); a truncated
name always ends with the ellipsis with the boilerplate around it
preserved verbatim (then the body is exactly 160), and an untruncated name
is embedded verbatim in the boilerplate. -/
theorem build_sms_message_capped (breach_name severity email_preview : String)
    (h : severity.length + email_preview.length ≤ 63) :
    (build_sms_message breach_name severity email_preview).length ≤ 160
    ∧ ((breach_name.length : Int) > available_length severity email_preview →
        ∃ t, build_sms_message breach_name severity email_preview
            = smsPrefix severity email_preview ++ (t ++ "...") ++ smsSuffix
          ∧ (build_sms_message breach_name severity email_preview).length = 160)
    ∧ ((breach_name.length : Int) ≤ available_length severity email_preview →
        build_sms_message breach_name severity email_preview
          = smsPrefix severity email_preview ++ breach_name ++ smsSuffix) := by
  have ha := available_length_eq severity email_preview
  have hell : ("..." : String).length = 3 := rfl
  by_cases hb : (breach_name.length : Int) > available_length severity email_preview
  · have heq : build_sms_message breach_name severity email_preview
        = smsPrefix severity email_preview
          ++ (pySliceTo (available_length severity email_preview - 3) breach_name
              ++ "...")
          ++ smsSuffix := by
      unfold build_sms_message
      rw [if_pos hb]
    have hlen : (build_sms_message breach_name severity email_preview).length
        = 160 := by
      rw [heq]
      rw [String.length_append, String.length_append, String.length_append,
        smsPrefix_length, smsSuffix_length, hell, pySliceTo_length]
      rw [if_pos (by omega : (0 : Int) ≤ available_length severity email_preview - 3)]
      omega
    exact ⟨le_of_eq hlen, fun _ => ⟨_, heq, hlen⟩, fun hc => absurd hc (by omega)⟩
  · have heq : build_sms_message breach_name severity email_preview
        = smsPrefix severity email_preview ++ breach_name ++ smsSuffix := by
      unfold build_sms_message
      rw [if_neg hb]
    have hlen : (build_sms_message breach_name severity email_preview).length
        ≤ 160 := by
      rw [heq, String.length_append, String.length_append, smsPrefix_length,
        smsSuffix_length]
      omega
    exact ⟨hlen, fun hc => absurd hc hb, fun _ => heq⟩

/-- Witness for `build_sms_message_capped`. -/
theorem build_sms_message_capped_witness :
    (build_sms_message "LinkedIn" "CRITICAL" "jo****@gmail.com").length ≤ 160
    ∧ ((("LinkedIn" : String).length : Int)
          > available_length "CRITICAL" "jo****@gmail.com" →
        ∃ t, build_sms_message "LinkedIn" "CRITICAL" "jo****@gmail.com"
            = smsPrefix "CRITICAL" "jo****@gmail.com" ++ (t ++ "...") ++ smsSuffix
          ∧ (build_sms_message "LinkedIn" "CRITICAL" "jo****@gmail.com").length = 160)
    ∧ ((("LinkedIn" : String).length : Int)
          ≤ available_length "CRITICAL" "jo****@gmail.com" →
        build_sms_message "LinkedIn" "CRITICAL" "jo****@gmail.com"
          = smsPrefix "CRITICAL" "jo****@gmail.com" ++ "LinkedIn" ++ smsSuffix) :=
  build_sms_message_capped "LinkedIn" "CRITICAL" "jo****@gmail.com" (by decide)

/-- C10: any severity other than CRITICAL or HIGH is skipped with reason
`severity_below_threshold` and the Twilio provider is never invoked. -/
theorem sms_skipped_below_threshold (provider : String → Except String String)
    (to_phone breach_name severity email_preview : String)
    (h1 : severity ≠ "CRITICAL") (h2 : severity ≠ "HIGH") :
    send_breach_sms provider to_phone breach_name severity email_preview
      = (⟨"skipped", some "severity_below_threshold", none, none⟩, false) := by
  unfold send_breach_sms
  rw [if_pos (by rintro (hc | hh) <;> [exact h1 hc; exact h2 hh])]

/-- Witness for `sms_skipped_below_threshold`. -/
theorem sms_skipped_below_threshold_witness :
    send_breach_sms (fun _ => Except.ok "SM123") "+15551234567" "LinkedIn"
        "LOW" "jo****@gmail.com"
      = (⟨"skipped", some "severity_below_threshold", none, none⟩, false) :=
  sms_skipped_below_threshold (fun _ => Except.ok "SM123") "+15551234567"
    "LinkedIn" "LOW" "jo****@gmail.com" (by decide) (by decide)

/-! ## Remediation cache key (backend/remediation/llm_advisor.py) -/

/-- `LLMAdvisor._build_cache_key`. Python's `sorted` on strings is the
(stable) sort by lexicographic order, modelled by `List.insertionSort`;
`hashlib.sha256(...).hexdigest()` is the external `sha256_hexdigest`
collaborator parameter. -/
def build_cache_key (sha256_hexdigest : String → String)
    (breach_name : String) (data_classes : List String) : String :=
  let sorted_classes := List.insertionSort (· ≤ ·) data_classes
  let joined_classes := String.intercalate "," sorted_classes
  let raw_key := breach_name ++ "|" ++ joined_classes
  sha256_hexdigest raw_key

/-- C8: the remediation cache key is invariant under permutation of the
category list, for every hash function, breach name and category lists. -/
theorem cache_key_perm_invariant (sha256_hexdigest : String → String)
    (breach_name : String) (l l' : List String) (hp : l.Perm l') :
    build_cache_key sha256_hexdigest breach_name l
      = build_cache_key sha256_hexdigest breach_name l' := by
  unfold build_cache_key
  have hsort : List.insertionSort (fun a b => a ≤ b) l
      = List.insertionSort (fun a b => a ≤ b) l' := by
    have hperm : (List.insertionSort (fun a b => a ≤ b) l).Perm
        (List.insertionSort (fun a b => a ≤ b) l') :=
      ((List.perm_insertionSort _ l).trans hp).trans
        (List.perm_insertionSort _ l').symm
    exact List.eq_of_perm_of_sorted hperm
      (List.sorted_insertionSort _ l) (List.sorted_insertionSort _ l')
  rw [hsort]

/-- Witness for `cache_key_perm_invariant`. -/
theorem cache_key_perm_invariant_witness :
    build_cache_key (fun s => s) "ExampleBreach"
        ["Passwords", "Email addresses"]
      = build_cache_key (fun s => s) "ExampleBreach"
        ["Email addresses", "Passwords"] :=
  cache_key_perm_invariant (fun s => s) "ExampleBreach"
    ["Passwords", "Email addresses"] ["Email addresses", "Passwords"]
    (List.Perm.swap "Email addresses" "Passwords" [])

/-! ## Data model and session (backend/database/models.py)

Columns never read by the pipeline under verification (timestamps of
creation, breach domain/date, pwn count, verification flags, …) are
omitted; timestamps that are read are modelled as `Nat` ticks. -/

structure User where
  id : Nat
  email : String
  /-- Models `getattr(owner, "phone_number", None)` in `dispatch_alerts`:
  the `users` table has no such column, so it is `none` unless the object
  carries a dynamically set attribute. -/
  phone_number : Option String
  is_active : Bool
deriving Repr, DecidableEq

structure MonitoredEmail where
  id : Nat
  user_id : Nat
  email_preview : String
  is_active : Bool
  scan_count : Nat
  last_scanned_at : Option Nat
deriving Repr, DecidableEq

structure BreachEvent where
  id : Nat
  monitored_email_id : Nat
  breach_name : String
  data_classes : List String
  severity : String
  severity_score : Nat
  is_notified : Bool
  notified_at : Option Nat
  remediation_text : Option String
deriving Repr, DecidableEq

structure AlertLog where
  breach_event_id : Nat
  channel : String
  recipient : String
  status : String
  error_message : Option String
deriving Repr, DecidableEq

structure RemediationCache where
  cache_key : String
  breach_name : String
  remediation_text : String
  hit_count : Nat
deriving Repr, DecidableEq

/-- One database snapshot. `next_event_id` models the autoincrement
primary key acquired by `db_session.flush()`. -/
structure DB where
  users : List User
  monitored_emails : List MonitoredEmail
  breach_events : List BreachEvent
  alert_logs : List AlertLog
  remediation_cache : List RemediationCache
  next_event_id : Nat
deriving Repr, DecidableEq

/-- A SQLAlchemy session: queries and flushed writes see `current`;
`commit` persists `current`, `rollback` restores `committed`. -/
structure Session where
  committed : DB
  current : DB
deriving Repr, DecidableEq

def Session.commit (s : Session) : Session := ⟨s.current, s.current⟩

def Session.rollback (s : Session) : Session := ⟨s.committed, s.committed⟩

namespace DB

def findMonitoredEmail (db : DB) (i : Nat) : Option MonitoredEmail :=
  db.monitored_emails.find? (fun m => m.id == i)

def findUser (db : DB) (i : Nat) : Option User :=
  db.users.find? (fun u => u.id == i)

def findBreachEvent (db : DB) (i : Nat) : Option BreachEvent :=
  db.breach_events.find? (fun e => e.id == i)

def findCacheEntry (db : DB) (key : String) : Option RemediationCache :=
  db.remediation_cache.find? (fun e => e.cache_key == key)

/-- The dedup query `filter_by(monitored_email_id=…, breach_name=…)`. -/
def hasBreachEvent (db : DB) (emailId : Nat) (name : String) : Bool :=
  db.breach_events.any
    (fun e => e.monitored_email_id == emailId && e.breach_name == name)

def bumpCacheHit (db : DB) (key : String) : DB :=
  let rc := db.remediation_cache.map (fun e =>
    if e.cache_key == key then { e with hit_count := e.hit_count + 1 } else e)
  { db with remediation_cache := rc }

def addCacheEntry (db : DB) (e : RemediationCache) : DB :=
  { db with remediation_cache := db.remediation_cache ++ [e] }

def addBreachEvent (db : DB) (e : BreachEvent) : DB :=
  { db with breach_events := db.breach_events ++ [e]
            next_event_id := db.next_event_id + 1 }

def addAlertLog (db : DB) (e : AlertLog) : DB :=
  { db with alert_logs := db.alert_logs ++ [e] }

def updateScanStamp (db : DB) (emailId now : Nat) : DB :=
  let mes := db.monitored_emails.map (fun m =>
    if m.id == emailId then
      { m with last_scanned_at := some now, scan_count := m.scan_count + 1 }
    else m)
  { db with monitored_emails := mes }

def setEventNotified (db : DB) (eventId now : Nat) : DB :=
  let evs := db.breach_events.map (fun e =>
    if e.id == eventId then
      { e with is_notified := true, notified_at := some now }
    else e)
  { db with breach_events := evs }

end DB

/-! ## Remediation advisor (backend/remediation/llm_advisor.py) -/

/-- The fixed fallback of `generate_remediation` when the Claude API fails. -/
def FALLBACK_REMEDIATION : String :=
  "Please change your password for this service immediately and enable two-factor authentication."

/-- `LLMAdvisor.generate_remediation`. The Claude collaborator is `api`
(`none` = API/network failure, absorbed into the fallback text). Note that
both the cache-hit path and the cache-store path call
`db_session.commit()` on the session passed in by the caller. -/
def generate_remediation (sha256_hexdigest : String → String)
    (api : String → List String → Option String)
    (breach_name : String) (data_classes : List String)
    (sess : Session) : String × Session :=
  let cache_key := build_cache_key sha256_hexdigest breach_name data_classes
  match sess.current.findCacheEntry cache_key with
  | some existing =>
    let sess1 : Session := ⟨sess.committed, sess.current.bumpCacheHit cache_key⟩
    (existing.remediation_text, sess1.commit)
  | none =>
    match api breach_name data_classes with
    | some remediation_text =>
      let sess1 : Session :=
        ⟨sess.committed,
         sess.current.addCacheEntry ⟨cache_key, breach_name, remediation_text, 1⟩⟩
      (remediation_text, sess1.commit)
    | none => (FALLBACK_REMEDIATION, sess)

/-! ## Scan worker (backend/workers/scan_tasks.py) -/

/-- Output of `HIBPClient.normalize_breach` (the fields the worker reads). -/
structure NormalizedBreach where
  name : String
  data_classes : List String
deriving Repr, DecidableEq

/-- The structured outcome of one `process_single_email` invocation;
`failed = true` models the `except` path (after which Celery may retry). -/
structure ScanOutcome where
  email_id : Nat
  new_breaches : Nat
  failed : Bool
deriving Repr, DecidableEq

/-- The `BreachEvent` built by one non-skipped loop iteration, given the
remediation result `rem` (whose session supplies the flushed id). -/
def scanEvent (monitored_email_id : Nat) (b : NormalizedBreach)
    (rem : String × Session) : BreachEvent :=
  { id := rem.2.current.next_event_id
    monitored_email_id := monitored_email_id
    breach_name := b.name
    data_classes := b.data_classes
    severity := (calculate_severity b.data_classes).label
    severity_score := (calculate_severity b.data_classes).score
    is_notified := false
    notified_at := none
    remediation_text := some rem.1 }

/-- Body of one non-skipped iteration of the scan loop: score the breach,
fetch remediation text (mutating the shared session!), build the new
`BreachEvent` and flush it. -/
def scanStep (sha256_hexdigest : String → String)
    (api : String → List String → Option String)
    (monitored_email_id : Nat) (b : NormalizedBreach) (sess : Session) : Session :=
  let rem := generate_remediation sha256_hexdigest api b.name b.data_classes sess
  ⟨rem.2.committed, rem.2.current.addBreachEvent (scanEvent monitored_email_id b rem)⟩

/-- The `for raw_breach in breaches` loop of `process_single_email`.
`failAt = some i` injects an exception at the start of iteration `i`
(any failure inside the loop body: HIBP data, advisor, date parsing, DB);
the handler rolls the session back. Returns (session, count, failed). -/
def scanLoop (sha256_hexdigest : String → String)
    (api : String → List String → Option String)
    (monitored_email_id : Nat) (failAt : Option Nat) :
    List NormalizedBreach → Nat → Nat → Session → Session × Nat × Bool
  | [], _, count, sess => (sess, count, false)
  | b :: rest, i, count, sess =>
    if failAt = some i then (sess.rollback, count, true)
    else if sess.current.hasBreachEvent monitored_email_id b.name then
      scanLoop sha256_hexdigest api monitored_email_id failAt rest (i + 1) count sess
    else
      scanLoop sha256_hexdigest api monitored_email_id failAt rest (i + 1) (count + 1)
        (scanStep sha256_hexdigest api monitored_email_id b sess)

/-- `process_single_email`. `breaches` is the (deterministically)
normalized response of the HIBP feed collaborator for this identity. -/
def process_single_email (sha256_hexdigest : String → String)
    (api : String → List String → Option String)
    (now : Nat) (failAt : Option Nat) (breaches : List NormalizedBreach)
    (monitored_email_id : Nat) (sess : Session) : Session × ScanOutcome :=
  match sess.current.findMonitoredEmail monitored_email_id with
  | none => (sess, ⟨monitored_email_id, 0, false⟩)
  | some monitored_email =>
    if monitored_email.is_active = false then
      (sess, ⟨monitored_email_id, 0, false⟩)
    else
      let r := scanLoop sha256_hexdigest api monitored_email_id failAt breaches 0 0 sess
      if r.2.2 then (r.1, ⟨monitored_email_id, r.2.1, true⟩)
      else
        let sess2 : Session :=
          ⟨r.1.committed, r.1.current.updateScanStamp monitored_email_id now⟩
        (sess2.commit, ⟨monitored_email_id, r.2.1, false⟩)

/-- Result dictionary of a channel send (`send_breach_alert`). -/
structure ChannelResult where
  status : String
  error : Option String
deriving Repr, DecidableEq

/-- The structured outcome of one `dispatch_alerts` invocation. -/
structure DispatchOutcome where
  breach_event_id : Nat
  channels_notified : List String
  failed : Bool
deriving Repr, DecidableEq

/-- The database state after the per-channel delivery-log writes of
`dispatch_alerts`: always an email log; an SMS log only when a phone
number is on file (in which case `send_breach_sms` was invoked). -/
def dispatchLogsDB (email_send : ChannelResult)
    (sms_provider : String → Except String String) (breach_event_id : Nat)
    (sess : Session) (breach_event : BreachEvent)
    (monitored_email : MonitoredEmail) (owner : User) : DB :=
  let cur1 := sess.current.addAlertLog
    ⟨breach_event_id, "email", owner.email, email_send.status, email_send.error⟩
  match owner.phone_number with
  | none => cur1
  | some phone_number =>
    let sms := send_breach_sms sms_provider phone_number
      breach_event.breach_name breach_event.severity monitored_email.email_preview
    cur1.addAlertLog
      ⟨breach_event_id, "sms", phone_number, sms.1.status, sms.1.error⟩

/-- The `channels` list accumulated by `dispatch_alerts`. -/
def dispatchChannels (email_send : ChannelResult)
    (sms_provider : String → Except String String) (breach_event : BreachEvent)
    (monitored_email : MonitoredEmail) (owner : User) : List String :=
  let channels1 : List String := if email_send.status = "sent" then ["email"] else []
  match owner.phone_number with
  | none => channels1
  | some phone_number =>
    let sms := send_breach_sms sms_provider phone_number
      breach_event.breach_name breach_event.severity monitored_email.email_preview
    channels1 ++ (if sms.1.status = "sent" then ["sms"] else [])

/-- `dispatch_alerts`. `email_send` is the SendGrid collaborator's result
(the sender traps its own exceptions and always returns a status dict);
`sms_provider` is the Twilio collaborator; `fail = true` injects an
exception between the guard and the final commit (handler rolls back). -/
def dispatch_alerts (email_send : ChannelResult)
    (sms_provider : String → Except String String) (now : Nat) (fail : Bool)
    (breach_event_id : Nat) (sess : Session) : Session × DispatchOutcome :=
  match sess.current.findBreachEvent breach_event_id with
  | none => (sess, ⟨breach_event_id, [], false⟩)
  | some breach_event =>
    if breach_event.is_notified then (sess, ⟨breach_event_id, [], false⟩)
    else
      match sess.current.findMonitoredEmail breach_event.monitored_email_id with
      | none => (sess.rollback, ⟨breach_event_id, [], true⟩)
      | some monitored_email =>
        match sess.current.findUser monitored_email.user_id with
        | none => (sess.rollback, ⟨breach_event_id, [], true⟩)
        | some owner =>
          if fail then (sess.rollback, ⟨breach_event_id, [], true⟩)
          else
            (Session.commit ⟨sess.committed,
              (dispatchLogsDB email_send sms_provider breach_event_id sess
                breach_event monitored_email owner).setEventNotified
                breach_event_id now⟩,
             ⟨breach_event_id,
              dispatchChannels email_send sms_provider breach_event
                monitored_email owner, false⟩)

/-- Distinctness of the `(monitored_email_id, breach_name)` pairs of a list
of breach events — the `uix_email_breach` unique constraint. -/
def pairsUnique (l : List BreachEvent) : Prop :=
  l.Pairwise (fun a b =>
    ¬(a.monitored_email_id = b.monitored_email_id ∧ a.breach_name = b.breach_name))

/-! ## Helper lemmas about the session model -/

lemma addBreachEvent_breach_events (db : DB) (e : BreachEvent) :
    (db.addBreachEvent e).breach_events = db.breach_events ++ [e] := rfl

lemma addBreachEvent_monitored_emails (db : DB) (e : BreachEvent) :
    (db.addBreachEvent e).monitored_emails = db.monitored_emails := rfl

lemma addAlertLog_breach_events (db : DB) (e : AlertLog) :
    (db.addAlertLog e).breach_events = db.breach_events := rfl

lemma updateScanStamp_breach_events (db : DB) (emailId now : Nat) :
    (db.updateScanStamp emailId now).breach_events = db.breach_events := rfl

lemma setEventNotified_breach_events (db : DB) (eventId now : Nat) :
    (db.setEventNotified eventId now).breach_events
      = db.breach_events.map (fun e =>
          if e.id == eventId then
            { e with is_notified := true, notified_at := some now }
          else e) := rfl

/-- `generate_remediation` never touches breach events or monitored
emails in the visible state, and its commits only ever persist the
session's own current state. -/
lemma generate_remediation_effects (sha : String → String)
    (api : String → List String → Option String)
    (n : String) (dc : List String) (sess : Session) :
    ((generate_remediation sha api n dc sess).2.current.breach_events
        = sess.current.breach_events
      ∧ (generate_remediation sha api n dc sess).2.current.monitored_emails
        = sess.current.monitored_emails)
    ∧ ((generate_remediation sha api n dc sess).2.committed = sess.committed
      ∨ (generate_remediation sha api n dc sess).2.committed
        = (generate_remediation sha api n dc sess).2.current) := by
  rcases hfind : sess.current.findCacheEntry (build_cache_key sha n dc)
    with _ | existing
  · rcases hapi : api n dc with _ | t
    · refine ⟨⟨?_, ?_⟩, Or.inl ?_⟩ <;>
        simp [generate_remediation, hfind, hapi]
    · refine ⟨⟨?_, ?_⟩, Or.inr ?_⟩ <;>
        simp [generate_remediation, hfind, hapi, Session.commit, DB.addCacheEntry]
  · refine ⟨⟨?_, ?_⟩, Or.inr ?_⟩ <;>
      simp [generate_remediation, hfind, Session.commit, DB.bumpCacheHit]

lemma scanStep_eq (sha : String → String)
    (api : String → List String → Option String)
    (mid : Nat) (b : NormalizedBreach) (sess : Session) :
    scanStep sha api mid b sess
      = ⟨(generate_remediation sha api b.name b.data_classes sess).2.committed,
         (generate_remediation sha api b.name b.data_classes sess).2.current.addBreachEvent
           (scanEvent mid b (generate_remediation sha api b.name b.data_classes sess))⟩ := rfl

lemma scanStep_current_events (sha : String → String)
    (api : String → List String → Option String)
    (mid : Nat) (b : NormalizedBreach) (sess : Session) :
    (scanStep sha api mid b sess).current.breach_events
      = sess.current.breach_events
        ++ [scanEvent mid b (generate_remediation sha api b.name b.data_classes sess)] := by
  rw [scanStep_eq]
  show ((generate_remediation sha api b.name b.data_classes sess).2.current.addBreachEvent
    _).breach_events = _
  rw [addBreachEvent_breach_events,
    (generate_remediation_effects sha api b.name b.data_classes sess).1.1]

lemma scanStep_current_monitored (sha : String → String)
    (api : String → List String → Option String)
    (mid : Nat) (b : NormalizedBreach) (sess : Session) :
    (scanStep sha api mid b sess).current.monitored_emails
      = sess.current.monitored_emails := by
  rw [scanStep_eq]
  show ((generate_remediation sha api b.name b.data_classes sess).2.current.addBreachEvent
    _).monitored_emails = _
  rw [addBreachEvent_monitored_emails,
    (generate_remediation_effects sha api b.name b.data_classes sess).1.2]

lemma scanStep_committed (sha : String → String)
    (api : String → List String → Option String)
    (mid : Nat) (b : NormalizedBreach) (sess : Session) :
    (scanStep sha api mid b sess).committed
      = (generate_remediation sha api b.name b.data_classes sess).2.committed := rfl

/-- `find?` commutes with mapping a function that preserves the predicate. -/
lemma find?_map_pred_pres {α : Type} (f : α → α) (p : α → Bool)
    (hf : ∀ x, p (f x) = p x) :
    ∀ l : List α, (l.map f).find? p = (l.find? p).map f := by
  intro l
  induction l with
  | nil => rfl
  | cons x rest ih =>
    by_cases hx : p x = true
    · rw [List.map_cons, List.find?_cons_of_pos _ ((hf x).trans hx),
        List.find?_cons_of_pos _ hx]
      rfl
    · rw [List.map_cons,
        List.find?_cons_of_neg _ (by rw [hf x]; exact Bool.not_eq_true _ ▸ hx),
        List.find?_cons_of_neg _ (Bool.not_eq_true _ ▸ hx), ih]

/-- `hasBreachEvent` is monotone under appending events. -/
lemma hasBreachEvent_mono {db db' : DB} {emailId : Nat} {name : String}
    (h : db.hasBreachEvent emailId name = true)
    (a : List BreachEvent)
    (hext : db'.breach_events = db.breach_events ++ a) :
    db'.hasBreachEvent emailId name = true := by
  unfold DB.hasBreachEvent at h ⊢
  rw [hext, List.any_append, h]
  rfl

lemma hasBreachEvent_congr {db db' : DB} (emailId : Nat) (name : String)
    (h : db'.breach_events = db.breach_events) :
    db'.hasBreachEvent emailId name = db.hasBreachEvent emailId name := by
  unfold DB.hasBreachEvent
  rw [h]

lemma findMonitoredEmail_congr {db db' : DB} (i : Nat)
    (h : db'.monitored_emails = db.monitored_emails) :
    db'.findMonitoredEmail i = db.findMonitoredEmail i := by
  unfold DB.findMonitoredEmail
  rw [h]

lemma findMonitoredEmail_updateScanStamp (db : DB) (emailId now i : Nat) :
    (db.updateScanStamp emailId now).findMonitoredEmail i
      = (db.findMonitoredEmail i).map (fun m =>
          if m.id == emailId then
            { m with last_scanned_at := some now, scan_count := m.scan_count + 1 }
          else m) := by
  unfold DB.updateScanStamp DB.findMonitoredEmail
  exact find?_map_pred_pres _ _
    (fun m => by by_cases hm : (m.id == emailId) = true <;> simp [hm]) _

/-- With no injected failure, the scan loop reports no failure. -/
lemma scanLoop_none_no_fail (sha : String → String)
    (api : String → List String → Option String) (mid : Nat) :
    ∀ (bs : List NormalizedBreach) (i count : Nat) (sess : Session),
      (scanLoop sha api mid none bs i count sess).2.2 = false := by
  intro bs
  induction bs with
  | nil => intro i count sess; rfl
  | cons b rest ih =>
    intro i count sess
    rw [scanLoop, if_neg (by simp : ¬(none : Option Nat) = some i)]
    by_cases hdup : sess.current.hasBreachEvent mid b.name = true
    · rw [if_pos hdup]; exact ih _ _ _
    · rw [if_neg hdup]; exact ih _ _ _

/-- With no injected failure, the scan loop only appends to the current
breach events. -/
lemma scanLoop_none_current_extend (sha : String → String)
    (api : String → List String → Option String) (mid : Nat) :
    ∀ (bs : List NormalizedBreach) (i count : Nat) (sess : Session),
      ∃ a, (scanLoop sha api mid none bs i count sess).1.current.breach_events
        = sess.current.breach_events ++ a := by
  intro bs
  induction bs with
  | nil => intro i count sess; exact ⟨[], by simp [scanLoop]⟩
  | cons b rest ih =>
    intro i count sess
    rw [scanLoop, if_neg (by simp : ¬(none : Option Nat) = some i)]
    by_cases hdup : sess.current.hasBreachEvent mid b.name = true
    · rw [if_pos hdup]; exact ih _ _ _
    · rw [if_neg hdup]
      obtain ⟨a, ha⟩ := ih (i + 1) (count + 1) (scanStep sha api mid b sess)
      rw [ha, scanStep_current_events, List.append_assoc]
      exact ⟨_, rfl⟩

/-- With no injected failure, the scan loop preserves the monitored
emails of the current state. -/
lemma scanLoop_none_current_monitored (sha : String → String)
    (api : String → List String → Option String) (mid : Nat) :
    ∀ (bs : List NormalizedBreach) (i count : Nat) (sess : Session),
      (scanLoop sha api mid none bs i count sess).1.current.monitored_emails
        = sess.current.monitored_emails := by
  intro bs
  induction bs with
  | nil => intro i count sess; rfl
  | cons b rest ih =>
    intro i count sess
    rw [scanLoop, if_neg (by simp : ¬(none : Option Nat) = some i)]
    by_cases hdup : sess.current.hasBreachEvent mid b.name = true
    · rw [if_pos hdup]; exact ih _ _ _
    · rw [if_neg hdup, ih, scanStep_current_monitored]

/-- With no injected failure, after the scan loop every processed breach
name has an event in the current state. -/
lemma scanLoop_none_coverage (sha : String → String)
    (api : String → List String → Option String) (mid : Nat) :
    ∀ (bs : List NormalizedBreach) (i count : Nat) (sess : Session),
      ∀ b ∈ bs,
        (scanLoop sha api mid none bs i count sess).1.current.hasBreachEvent
          mid b.name = true := by
  intro bs
  induction bs with
  | nil => intro i count sess b hb; cases hb
  | cons b0 rest ih =>
    intro i count sess b hb
    rw [scanLoop, if_neg (by simp : ¬(none : Option Nat) = some i)]
    by_cases hdup : sess.current.hasBreachEvent mid b0.name = true
    · rw [if_pos hdup]
      rcases List.mem_cons.mp hb with rfl | hmem
      · obtain ⟨a, ha⟩ := scanLoop_none_current_extend sha api mid rest (i + 1) count sess
        exact hasBreachEvent_mono hdup a ha
      · exact ih _ _ _ b hmem
    · rw [if_neg hdup]
      have hcov2 : (scanStep sha api mid b0 sess).current.hasBreachEvent
          mid b0.name = true := by
        unfold DB.hasBreachEvent
        rw [scanStep_current_events, List.any_append]
        simp [scanEvent]
      rcases List.mem_cons.mp hb with rfl | hmem
      · obtain ⟨a, ha⟩ := scanLoop_none_current_extend sha api mid rest (i + 1)
          (count + 1) (scanStep sha api mid b sess)
        exact hasBreachEvent_mono hcov2 a ha
      · exact ih _ _ _ b hmem

/-- If every breach of the feed already has an event, the scan loop is the
identity on the session and counts nothing new. -/
lemma scanLoop_skip_all (sha : String → String)
    (api : String → List String → Option String) (mid : Nat) :
    ∀ (bs : List NormalizedBreach) (i count : Nat) (sess : Session),
      (∀ b ∈ bs, sess.current.hasBreachEvent mid b.name = true) →
      scanLoop sha api mid none bs i count sess = (sess, count, false) := by
  intro bs
  induction bs with
  | nil => intro i count sess _; rfl
  | cons b rest ih =>
    intro i count sess hall
    rw [scanLoop, if_neg (by simp : ¬(none : Option Nat) = some i),
      if_pos (hall b (List.mem_cons_self b rest))]
    exact ih _ _ _ (fun b' hb' => hall b' (List.mem_cons_of_mem b hb'))

/-- The scan loop (with arbitrary failure injection) only ever grows the
current breach events beyond any base both snapshots extend. -/
lemma scanLoop_events_superset (sha : String → String)
    (api : String → List String → Option String) (mid : Nat) (failAt : Option Nat) :
    ∀ (bs : List NormalizedBreach) (i count : Nat) (sess : Session)
      (orig : List BreachEvent),
      (∃ a, sess.current.breach_events = orig ++ a) →
      (∃ b2, sess.committed.breach_events = orig ++ b2) →
      (∃ a, (scanLoop sha api mid failAt bs i count sess).1.current.breach_events
          = orig ++ a)
        ∧ (∃ b2, (scanLoop sha api mid failAt bs i count sess).1.committed.breach_events
          = orig ++ b2) := by
  intro bs
  induction bs with
  | nil => intro i count sess orig hcur hcom; exact ⟨hcur, hcom⟩
  | cons b rest ih =>
    intro i count sess orig hcur hcom
    rw [scanLoop]
    by_cases hfa : failAt = some i
    · rw [if_pos hfa]
      exact ⟨hcom, hcom⟩
    · rw [if_neg hfa]
      by_cases hdup : sess.current.hasBreachEvent mid b.name = true
      · rw [if_pos hdup]; exact ih _ _ _ _ hcur hcom
      · rw [if_neg hdup]
        obtain ⟨a, ha⟩ := hcur
        obtain ⟨b2, hb2⟩ := hcom
        refine ih _ _ _ _ ?_ ?_
        · rw [scanStep_current_events, ha, List.append_assoc]
          exact ⟨_, rfl⟩
        · rw [scanStep_committed]
          rcases (generate_remediation_effects sha api b.name b.data_classes sess).2
            with hco | hco
          · rw [hco]; exact ⟨b2, hb2⟩
          · rw [hco,
              (generate_remediation_effects sha api b.name b.data_classes sess).1.1]
            exact ⟨a, ha⟩

/-- The scan loop preserves uniqueness of `(identity, breach name)` pairs:
an event is only appended when the dedup query found none. -/
lemma scanLoop_none_pairsUnique (sha : String → String)
    (api : String → List String → Option String) (mid : Nat) :
    ∀ (bs : List NormalizedBreach) (i count : Nat) (sess : Session),
      pairsUnique sess.current.breach_events →
      pairsUnique (scanLoop sha api mid none bs i count sess).1.current.breach_events := by
  intro bs
  induction bs with
  | nil => intro i count sess h; exact h
  | cons b rest ih =>
    intro i count sess h
    rw [scanLoop, if_neg (by simp : ¬(none : Option Nat) = some i)]
    by_cases hdup : sess.current.hasBreachEvent mid b.name = true
    · rw [if_pos hdup]; exact ih _ _ _ h
    · rw [if_neg hdup]
      refine ih _ _ _ ?_
      rw [scanStep_current_events]
      rw [pairsUnique, List.pairwise_append]
      refine ⟨h, List.pairwise_singleton _ _, ?_⟩
      intro a hmem ev hev
      rw [List.mem_singleton] at hev
      subst hev
      rintro ⟨hm, hn⟩
      have hfd : sess.current.hasBreachEvent mid b.name = false := by
        cases hh : sess.current.hasBreachEvent mid b.name
        · rfl
        · exact absurd hh hdup
      unfold DB.hasBreachEvent at hfd
      have hall := List.any_eq_false.mp hfd a hmem
      apply hall
      rw [Bool.and_eq_true, beq_iff_eq, beq_iff_eq]
      exact ⟨hm, hn⟩

lemma dispatchLogsDB_breach_events (email_send : ChannelResult)
    (sms_provider : String → Except String String) (breach_event_id : Nat)
    (sess : Session) (breach_event : BreachEvent)
    (monitored_email : MonitoredEmail) (owner : User) :
    (dispatchLogsDB email_send sms_provider breach_event_id sess breach_event
      monitored_email owner).breach_events = sess.current.breach_events := by
  unfold dispatchLogsDB
  cases owner.phone_number <;> rfl

/-- The guard of `dispatch_alerts`: a missing or already-notified event
short-circuits to a benign no-op. -/
lemma dispatch_alerts_noop_aux (email_send : ChannelResult)
    (sms_provider : String → Except String String) (now : Nat) (fail : Bool)
    (breach_event_id : Nat) (sess : Session)
    (h : sess.current.findBreachEvent breach_event_id = none
       ∨ ∃ ev, sess.current.findBreachEvent breach_event_id = some ev
          ∧ ev.is_notified = true) :
    dispatch_alerts email_send sms_provider now fail breach_event_id sess
      = (sess, ⟨breach_event_id, [], false⟩) := by
  rcases h with hnone | ⟨ev, hev, hnot⟩
  · unfold dispatch_alerts
    rw [hnone]
  · unfold dispatch_alerts
    rw [hev]
    simp [hnot]

/-- C6: dispatch on a missing or already-notified breach event is a no-op:
the session (hence the alert-log table and every notified flag and
timestamp) is unchanged and the benign outcome reports no channels, so a
second dispatch after a successful one changes nothing. -/
theorem dispatch_noop_missing_or_notified (email_send : ChannelResult)
    (sms_provider : String → Except String String) (now : Nat) (fail : Bool)
    (breach_event_id : Nat) (sess : Session)
    (h : sess.current.findBreachEvent breach_event_id = none
       ∨ ∃ ev, sess.current.findBreachEvent breach_event_id = some ev
          ∧ ev.is_notified = true) :
    (dispatch_alerts email_send sms_provider now fail breach_event_id sess).1 = sess
    ∧ (dispatch_alerts email_send sms_provider now fail breach_event_id sess).2
        = ⟨breach_event_id, [], false⟩ := by
  rw [dispatch_alerts_noop_aux email_send sms_provider now fail breach_event_id sess h]
  exact ⟨rfl, rfl⟩

/-- Database with one already-notified breach event, for the witness. -/
def renotifyDB : DB :=
  { users := [⟨1, "owner@example.com", none, true⟩]
    monitored_emails := [⟨1, 1, "jo****@x.com", true, 1, some 5⟩]
    breach_events := [⟨7, 1, "BreachA", ["Passwords"], "CRITICAL", 25, true,
      some 6, some "Rotate your password."⟩]
    alert_logs := [⟨7, "email", "owner@example.com", "sent", none⟩]
    remediation_cache := []
    next_event_id := 8 }

def renotifySession : Session := ⟨renotifyDB, renotifyDB⟩

/-- Witness for `dispatch_noop_missing_or_notified`. -/
theorem dispatch_noop_missing_or_notified_witness :
    (dispatch_alerts ⟨"sent", none⟩ (fun _ => Except.ok "SM9") 9 false 7
        renotifySession).1 = renotifySession
    ∧ (dispatch_alerts ⟨"sent", none⟩ (fun _ => Except.ok "SM9") 9 false 7
        renotifySession).2 = ⟨7, [], false⟩ :=
  dispatch_noop_missing_or_notified ⟨"sent", none⟩ (fun _ => Except.ok "SM9") 9
    false 7 renotifySession
    (Or.inr ⟨⟨7, 1, "BreachA", ["Passwords"], "CRITICAL", 25, true, some 6,
      some "Rotate your password."⟩, by decide, rfl⟩)

/-- Database with one unnotified CRITICAL event whose owner has no phone
number, for the C4 counterexample. -/
def allFailDB : DB :=
  { users := [⟨1, "owner@example.com", none, true⟩]
    monitored_emails := [⟨1, 1, "jo****@x.com", true, 1, some 5⟩]
    breach_events := [⟨7, 1, "BreachA", ["Passwords"], "CRITICAL", 25, false,
      none, some "Rotate your password."⟩]
    alert_logs := []
    remediation_cache := []
    next_event_id := 8 }

def allFailSession : Session := ⟨allFailDB, allFailDB⟩

/-- A dispatch invocation in which every attempted channel fails: the
email send returns status `failed` and no phone number is on file. -/
def allFailDispatch : Session × DispatchOutcome :=
  dispatch_alerts ⟨"failed", some "SendGrid 500"⟩
    (fun _ => Except.error "unreachable") 6 false 7 allFailSession

/-- C4 counterexample: a dispatch invocation whose channel attempts all
fail (zero channels notified) still sets the notified flag and stamps the
timestamp — the transition is not triggered by channel success. -/
theorem dispatch_marks_notified_despite_all_failures :
    allFailDispatch.2.channels_notified = []
    ∧ allFailDispatch.2.failed = false
    ∧ (allFailDispatch.1.current.findBreachEvent 7).map BreachEvent.is_notified
        = some true
    ∧ (allFailDispatch.1.committed.findBreachEvent 7).map BreachEvent.is_notified
        = some true := by
  decide

/-- C4 (amended): the notified flag is one-way — no dispatch or scan
invocation (starting, as every worker does, from a freshly opened clean
session) ever clears a set flag — and the UNNOTIFIED → NOTIFIED transition
is triggered exactly by a dispatch invocation running to completion
(reaching its final commit without an exception), regardless of whether
any individual channel attempt succeeded. -/
theorem notified_flag_one_way (email_send : ChannelResult)
    (sms_provider : String → Except String String) (now : Nat) (fail : Bool)
    (breach_event_id : Nat) (sess : Session)
    (hclean : sess.current = sess.committed) :
    (∀ ev ∈ sess.current.breach_events, ev.is_notified = true →
        ∃ ev' ∈ (dispatch_alerts email_send sms_provider now fail
            breach_event_id sess).1.current.breach_events,
          ev'.id = ev.id ∧ ev'.is_notified = true)
    ∧ (∀ (sha : String → String) (api : String → List String → Option String)
          (now2 : Nat) (failAt : Option Nat) (breaches : List NormalizedBreach)
          (mid : Nat),
        ∀ ev ∈ sess.current.breach_events, ev.is_notified = true →
          ev ∈ (process_single_email sha api now2 failAt breaches mid
            sess).1.current.breach_events)
    ∧ (∀ ev, sess.current.findBreachEvent breach_event_id = some ev →
        ev.is_notified = false →
        (∃ me, sess.current.findMonitoredEmail ev.monitored_email_id = some me
          ∧ ∃ ow, sess.current.findUser me.user_id = some ow) →
        fail = false →
        ((dispatch_alerts email_send sms_provider now fail breach_event_id
            sess).1.current.findBreachEvent breach_event_id).map
          BreachEvent.is_notified = some true) := by
  refine ⟨?_, ?_, ?_⟩
  · -- dispatch never clears the flag
    intro ev hev hnot
    rcases Option.eq_none_or_eq_some (sess.current.findBreachEvent breach_event_id)
      with hfind | ⟨be, hfind⟩
    · rw [dispatch_alerts_noop_aux email_send sms_provider now fail
        breach_event_id sess (Or.inl hfind)]
      exact ⟨ev, hev, rfl, hnot⟩
    · by_cases hbn : be.is_notified = true
      · rw [dispatch_alerts_noop_aux email_send sms_provider now fail
          breach_event_id sess (Or.inr ⟨be, hfind, hbn⟩)]
        exact ⟨ev, hev, rfl, hnot⟩
      · rcases Option.eq_none_or_eq_some
          (sess.current.findMonitoredEmail be.monitored_email_id)
          with hme | ⟨me, hme⟩
        · simp only [dispatch_alerts, hfind, hbn, hme, Session.rollback,
            if_false]
          rw [← hclean]
          exact ⟨ev, hev, rfl, hnot⟩
        · rcases Option.eq_none_or_eq_some (sess.current.findUser me.user_id)
            with how | ⟨ow, how⟩
          · simp only [dispatch_alerts, hfind, hbn, hme, how, Session.rollback,
              if_false]
            rw [← hclean]
            exact ⟨ev, hev, rfl, hnot⟩
          · by_cases hfl : fail = true
            · simp only [dispatch_alerts, hfind, hbn, hme, how, hfl,
                Session.rollback, if_false, if_true]
              rw [← hclean]
              exact ⟨ev, hev, rfl, hnot⟩
            · simp only [dispatch_alerts, hfind, hbn, hme, how, hfl, if_false]
              show ∃ ev' ∈ ((dispatchLogsDB email_send sms_provider breach_event_id
                sess be me ow).setEventNotified breach_event_id now).breach_events,
                ev'.id = ev.id ∧ ev'.is_notified = true
              rw [setEventNotified_breach_events, dispatchLogsDB_breach_events]
              refine ⟨_, List.mem_map_of_mem _ hev, ?_, ?_⟩
              · by_cases hid : (ev.id == breach_event_id) = true <;> simp [hid]
              · by_cases hid : (ev.id == breach_event_id) = true <;> simp [hid, hnot]
  · -- a scan never clears the flag
    intro sha api now2 failAt breaches mid ev hev hnot
    rcases Option.eq_none_or_eq_some (sess.current.findMonitoredEmail mid)
      with hfm | ⟨me, hfm⟩
    · simp only [process_single_email, hfm]
      exact hev
    · simp only [process_single_email, hfm]
      by_cases hact : me.is_active = false
      · rw [if_pos hact]; exact hev
      · rw [if_neg hact]
        have hsup := scanLoop_events_superset sha api mid failAt breaches 0 0 sess
          sess.current.breach_events ⟨[], by simp⟩ ⟨[], by rw [← hclean]; simp⟩
        obtain ⟨⟨a, ha⟩, -⟩ := hsup
        by_cases hr : (scanLoop sha api mid failAt breaches 0 0 sess).2.2 = true
        · rw [if_pos hr]
          show ev ∈ (scanLoop sha api mid failAt breaches 0 0 sess).1.current.breach_events
          rw [ha]
          exact List.mem_append_left _ hev
        · rw [if_neg hr]
          show ev ∈ ((scanLoop sha api mid failAt breaches 0 0
            sess).1.current.updateScanStamp mid now2).breach_events
          rw [updateScanStamp_breach_events, ha]
          exact List.mem_append_left _ hev
  · -- completion of dispatch sets the flag
    intro ev hev hnot hown hfl
    obtain ⟨me, hme, ow, how⟩ := hown
    subst hfl
    simp only [dispatch_alerts, hev, hnot, hme, how, if_false]
    show (((dispatchLogsDB email_send sms_provider breach_event_id sess ev me
      ow).setEventNotified breach_event_id now).findBreachEvent
        breach_event_id).map BreachEvent.is_notified = some true
    unfold DB.findBreachEvent
    rw [setEventNotified_breach_events, dispatchLogsDB_breach_events]
    rw [find?_map_pred_pres _ _
      (fun x => by by_cases hx : (x.id == breach_event_id) = true <;> simp [hx])]
    have hfe : sess.current.breach_events.find? (fun e => e.id == breach_event_id)
        = some ev := hev
    rw [hfe]
    have hped' := List.find?_some hfe
    have hped : (ev.id == breach_event_id) = true := hped'
    have hpe : ev.id = breach_event_id := by simpa using hped
    simp [hpe]

/-- Witness for `notified_flag_one_way` (third conjunct, at the all-fail
dispatch input). -/
theorem notified_flag_one_way_witness :
    ((dispatch_alerts ⟨"failed", some "SendGrid 500"⟩
        (fun _ => Except.error "unreachable") 6 false 7
        allFailSession).1.current.findBreachEvent 7).map BreachEvent.is_notified
      = some true := by
  have h := notified_flag_one_way ⟨"failed", some "SendGrid 500"⟩
    (fun _ => Except.error "unreachable") 6 false 7 allFailSession rfl
  exact h.2.2
    ⟨7, 1, "BreachA", ["Passwords"], "CRITICAL", 25, false, none,
      some "Rotate your password."⟩
    (by decide) rfl
    ⟨⟨1, 1, "jo****@x.com", true, 1, some 5⟩, by decide,
      ⟨1, "owner@example.com", none, true⟩, by decide⟩ rfl

/-- C7: rescanning an identity against an unchanged upstream breach list
creates zero new breach events — every normalized breach is skipped by the
`(identity, breach name)` dedup query — and the uniqueness of the
`(identity, breach name)` pairs is preserved across repeated sweeps. -/
theorem rescan_unchanged_feed_no_new_events (sha : String → String)
    (api : String → List String → Option String) (now now2 : Nat)
    (breaches : List NormalizedBreach) (mid : Nat) (sess : Session)
    (me : MonitoredEmail)
    (hfind : sess.current.findMonitoredEmail mid = some me)
    (hact : me.is_active = true) :
    (process_single_email sha api now2 none breaches mid
        (process_single_email sha api now none breaches mid sess).1).2.new_breaches = 0
    ∧ (process_single_email sha api now2 none breaches mid
        (process_single_email sha api now none breaches mid sess).1).1.current.breach_events
      = (process_single_email sha api now none breaches mid sess).1.current.breach_events
    ∧ (pairsUnique sess.current.breach_events →
        pairsUnique (process_single_email sha api now2 none breaches mid
          (process_single_email sha api now none breaches mid sess).1).1.current.breach_events) := by
  have hact' : ¬ me.is_active = false := by rw [hact]; simp
  have h1 : process_single_email sha api now none breaches mid sess
      = (Session.commit ⟨(scanLoop sha api mid none breaches 0 0 sess).1.committed,
          (scanLoop sha api mid none breaches 0 0 sess).1.current.updateScanStamp mid now⟩,
         ⟨mid, (scanLoop sha api mid none breaches 0 0 sess).2.1, false⟩) := by
    simp only [process_single_email, hfind]
    rw [if_neg hact',
      if_neg (by rw [scanLoop_none_no_fail]; simp :
        ¬(scanLoop sha api mid none breaches 0 0 sess).2.2 = true)]
  set s1 := (process_single_email sha api now none breaches mid sess).1 with hs1
  have hs1cur : s1.current
      = (scanLoop sha api mid none breaches 0 0 sess).1.current.updateScanStamp
          mid now := by
    rw [hs1, h1]
    rfl
  have hs1com : s1.committed
      = (scanLoop sha api mid none breaches 0 0 sess).1.current.updateScanStamp
          mid now := by
    rw [hs1, h1]
    rfl
  have hs1events : s1.current.breach_events
      = (scanLoop sha api mid none breaches 0 0 sess).1.current.breach_events := by
    rw [hs1cur, updateScanStamp_breach_events]
  have hmon : (scanLoop sha api mid none breaches 0 0
      sess).1.current.findMonitoredEmail mid = some me := by
    rw [findMonitoredEmail_congr mid
      (scanLoop_none_current_monitored sha api mid breaches 0 0 sess), hfind]
  have hfind' : sess.current.monitored_emails.find? (fun m => m.id == mid)
      = some me := hfind
  have hmid' := List.find?_some hfind'
  have hmid : (me.id == mid) = true := hmid'
  have hmideq : me.id = mid := by simpa using hmid
  set me2 : MonitoredEmail :=
    { me with last_scanned_at := some now, scan_count := me.scan_count + 1 }
    with hme2def
  have hme2 : s1.current.findMonitoredEmail mid = some me2 := by
    rw [hs1cur, findMonitoredEmail_updateScanStamp, hmon]
    simp [hmideq, hme2def]
  have hcov : ∀ b ∈ breaches, s1.current.hasBreachEvent mid b.name = true := by
    intro b hb
    rw [hasBreachEvent_congr mid b.name hs1events]
    exact scanLoop_none_coverage sha api mid breaches 0 0 sess b hb
  have hskip := scanLoop_skip_all sha api mid breaches 0 0 s1 hcov
  have h2 : process_single_email sha api now2 none breaches mid s1
      = (Session.commit ⟨s1.committed, s1.current.updateScanStamp mid now2⟩,
         ⟨mid, 0, false⟩) := by
    simp only [process_single_email, hme2]
    rw [if_neg (by simp [hme2def, hact] : ¬me2.is_active = false)]
    rw [hskip]
    rfl
  refine ⟨?_, ?_, ?_⟩
  · rw [h2]
  · rw [h2]
    show (s1.current.updateScanStamp mid now2).breach_events
      = s1.current.breach_events
    exact updateScanStamp_breach_events _ _ _
  · intro hpu
    rw [h2]
    show pairsUnique (s1.current.updateScanStamp mid now2).breach_events
    rw [updateScanStamp_breach_events, hs1events]
    exact scanLoop_none_pairsUnique sha api mid breaches 0 0 sess hpu

/-- Clean single-identity database for the C7 witness. -/
def sweepDB : DB :=
  { users := [⟨1, "owner@example.com", none, true⟩]
    monitored_emails := [⟨1, 1, "jo****@x.com", true, 0, none⟩]
    breach_events := []
    alert_logs := []
    remediation_cache := []
    next_event_id := 1 }

def sweepSession : Session := ⟨sweepDB, sweepDB⟩

def sweepFeed : List NormalizedBreach := [⟨"BreachA", ["Passwords"]⟩]

/-- Witness for `rescan_unchanged_feed_no_new_events`. -/
theorem rescan_unchanged_feed_no_new_events_witness :
    (process_single_email (fun s => s) (fun _ _ => some "Rotate your password.")
        9 none sweepFeed 1
        (process_single_email (fun s => s) (fun _ _ => some "Rotate your password.")
          5 none sweepFeed 1 sweepSession).1).2.new_breaches = 0
    ∧ (process_single_email (fun s => s) (fun _ _ => some "Rotate your password.")
        9 none sweepFeed 1
        (process_single_email (fun s => s) (fun _ _ => some "Rotate your password.")
          5 none sweepFeed 1 sweepSession).1).1.current.breach_events
      = (process_single_email (fun s => s) (fun _ _ => some "Rotate your password.")
          5 none sweepFeed 1 sweepSession).1.current.breach_events
    ∧ pairsUnique (process_single_email (fun s => s)
        (fun _ _ => some "Rotate your password.") 9 none sweepFeed 1
        (process_single_email (fun s => s) (fun _ _ => some "Rotate your password.")
          5 none sweepFeed 1 sweepSession).1).1.current.breach_events := by
  have h := rescan_unchanged_feed_no_new_events (fun s => s)
    (fun _ _ => some "Rotate your password.") 5 9 sweepFeed 1 sweepSession
    ⟨1, 1, "jo****@x.com", true, 0, none⟩ (by decide) rfl
  exact ⟨h.1, h.2.1, h.2.2 List.Pairwise.nil⟩

/-- Clean single-identity database for the C2 failing input. -/
def atomDB : DB :=
  { users := [⟨1, "owner@example.com", none, true⟩]
    monitored_emails := [⟨1, 1, "jo****@x.com", true, 0, none⟩]
    breach_events := []
    alert_logs := []
    remediation_cache := []
    next_event_id := 1 }

def atomSession : Session := ⟨atomDB, atomDB⟩

/-- A feed of three new breaches; the injected exception hits while the
third is being processed. -/
def atomFeed : List NormalizedBreach :=
  [⟨"BreachA", ["Passwords"]⟩, ⟨"BreachB", ["Passwords"]⟩, ⟨"BreachC", ["Passwords"]⟩]

def atomScan : Session × ScanOutcome :=
  process_single_email (fun s => s) (fun _ _ => some "Rotate your password.")
    5 (some 2) atomFeed 1 atomSession

/-- C2 failing input, evaluated: the invocation fails while processing the
third breach, yet the BreachEvent for `BreachA` created by this very
invocation is already durably committed (the advisor's mid-loop
`db_session.commit()` on the shared session persisted it), while the scan
count is still 0 — stale. The claimed all-or-nothing commit does not hold. -/
theorem scan_failure_leaves_partial_commit :
    atomScan.2.failed = true
    ∧ atomSession.current.breach_events = []
    ∧ atomScan.1.current.hasBreachEvent 1 "BreachA" = true
    ∧ atomScan.1.committed.hasBreachEvent 1 "BreachA" = true
    ∧ (atomScan.1.current.findMonitoredEmail 1).map MonitoredEmail.scan_count
        = some 0 := by
  decide

end BreachShield

